import Mathlib

/-!
Shallow embedding of the request-construction layer of a JavaScript client
library for a file-transfer management REST service (src/globus.js).

Each exported JavaScript function receives a bearer token and an options bag
and hands a URL plus an options object (auth, method, body, json flag) to a
generic HTTP client.  We embed each function as a Lean definition producing a
`Request` descriptor: the pure request-building part of the call.  Functions
that throw before reaching the HTTP client are embedded with return type
`Except String Request` and produce `.error msg`.

JavaScript dynamic values reachable from the options bag are modelled by
`JSValue`; an absent field reads as `JSValue.undef`, matching property access
on a plain object.  String concatenation with `+` coerces its operand via
`toJSString`, `a || b` is `jsOr`, and `String.prototype.replace` with a string
search value (which replaces only the first occurrence) is `jsReplaceFirst`.
-/

namespace Globus

/-- JavaScript values that can sit in an options bag or a request body:
undefined, null, booleans, (integer) numbers, strings and plain objects. -/
inductive JSValue where
  | undef
  | nullv
  | boolv (b : Bool)
  | num (n : Int)
  | str (s : String)
  | obj (fields : List (String × JSValue))

/-- JavaScript truthiness: undefined, null, false, 0 and the empty string are
falsy; every other modelled value is truthy. -/
def truthy : JSValue → Bool
  | .undef => false
  | .nullv => false
  | .boolv b => b
  | .num n => n != 0
  | .str s => s != ""
  | .obj _ => true

/-- Coercion applied by JavaScript when a value meets `+` with a string. -/
def toJSString : JSValue → String
  | .undef => "undefined"
  | .nullv => "null"
  | .boolv b => if b then "true" else "false"
  | .num n => toString n
  | .str s => s
  | .obj _ => "[object Object]"

/-- JavaScript `a || b`: the left operand if truthy, otherwise the right. -/
def jsOr (a b : JSValue) : JSValue :=
  if truthy a then a else b

/-- JavaScript property read on a value: a lookup on objects (first binding
wins), `undefined` on everything else and on missing keys. -/
def jsGet (v : JSValue) (key : String) : JSValue :=
  match v with
  | .obj fields =>
    match fields.lookup key with
    | some w => w
    | none => .undef
  | _ => JSValue.undef

/-- Replacement of the first occurrence of `pat` in a character list, the
list-level engine of `String.prototype.replace` with a string search value. -/
def listReplaceFirst (pat rep : List Char) : List Char → List Char
  | [] => if List.isPrefixOf pat ([] : List Char) then rep else []
  | c :: rest =>
    if List.isPrefixOf pat (c :: rest) then rep ++ List.drop pat.length (c :: rest)
    else c :: listReplaceFirst pat rep rest

/-- JavaScript `s.replace(pat, rep)` with a string search value: only the
first occurrence of `pat` is replaced. -/
def jsReplaceFirst (s pat rep : String) : String :=
  String.mk (listReplaceFirst pat.data rep.data s.data)

/-- The options bag handed to the exported operations.  Every field any
operation reads is present; a field the caller did not set is `undef`,
exactly as a property read on a missing key in JavaScript. -/
structure Options where
  endpoint_xid : JSValue := .undef
  id : JSValue := .undef
  userId : JSValue := .undef
  path : JSValue := .undef
  permissions : JSValue := .undef
  userEmail : JSValue := .undef
  emailMessage : JSValue := .undef
  role_id : JSValue := .undef
  principal_type : JSValue := .undef
  principal : JSValue := .undef
  transferBaseURL : JSValue := .undef
  document : JSValue := .undef
  display_name : JSValue := .undef
  documents : JSValue := .undef
  displayName : JSValue := .undef
  hostId : JSValue := .undef
  description : JSValue := .undef
  organization : JSValue := .undef
  hostname : JSValue := .undef
  uri : JSValue := .undef
  port : JSValue := .undef
  scheme : JSValue := .undef
  server_id : JSValue := .undef
  subject : JSValue := .undef
  query_parameters : JSValue := .undef
  old_path : JSValue := .undef
  new_path : JSValue := .undef
  submission_id : JSValue := .undef
  label : JSValue := .undef
  notify_on_succeeded : JSValue := .undef
  notify_on_failed : JSValue := .undef
  notify_on_inactive : JSValue := .undef
  source_endpoint : JSValue := .undef
  destination_endpoint : JSValue := .undef
  DATA : JSValue := .undef
  encrypt_data : JSValue := .undef
  sync_level : JSValue := .undef
  verify_checksum : JSValue := .undef
  preserve_timestamp : JSValue := .undef
  delete_destination_extra : JSValue := .undef
  endpoint : JSValue := .undef
  recursive : JSValue := .undef
  ignore_missing : JSValue := .undef
  interpret_globs : JSValue := JSValue.undef

/-- The request descriptor handed to the HTTP client: the URL plus the
options object of the call.  `method` is "GET" when the source passes no
method key, `body` is `undef` and `json` is `false` when absent, matching
the client's defaults. -/
structure Request where
  url : String
  method : String := "GET"
  auth_bearer : String
  body : JSValue := .undef
  json : Bool := false

def transferBaseURL : String := "https://transfer.api.globusonline.org/v0.10"

def authBaseURL : String := "https://auth.globus.org/v2/api"

/-- getAccessRulesList - list the access rules in the ACL of an endpoint. -/
def getAccessRulesList (bearerToken : String) (options : Options) : Request :=
  { url := transferBaseURL ++ "/endpoint/" ++ toJSString options.endpoint_xid ++ "/access_list"
    auth_bearer := bearerToken
    json := true }

/-- getAccessRulesListById - get a single access rule of an endpoint by id. -/
def getAccessRulesListById (bearerToken : String) (options : Options) : Request :=
  { url := transferBaseURL ++ "/endpoint/" ++ toJSString options.endpoint_xid ++ "/access/"
             ++ toJSString options.id
    auth_bearer := bearerToken
    json := true }

/-- createAccessRule - open an access rule for a given user.  The source
hardcodes the string literal for the permissions field of the body. -/
def createAccessRule (bearerToken : String) (options : Options) : Request :=
  { url := transferBaseURL ++ "/endpoint/" ++ toJSString options.endpoint_xid ++ "/access"
    method := "POST"
    auth_bearer := bearerToken
    body := .obj [("DATA_TYPE", .str "access"),
                  ("principal_type", .str "identity"),
                  ("principal", options.userId),
                  ("path", options.path),
                  ("permissions", .str "r"),
                  ("notify_email", options.userEmail)]
    json := true }

/-- updateAccessRule - update the permissions of an existing access rule. -/
def updateAccessRule (bearerToken : String) (options : Options) : Request :=
  { url := transferBaseURL ++ "/endpoint/" ++ toJSString options.endpoint_xid ++ "/access/"
             ++ toJSString options.id
    method := "POST"
    auth_bearer := bearerToken
    body := .obj [("DATA_TYPE", .str "access"),
                  ("id", options.id),
                  ("role_id", options.role_id),
                  ("principal_type", options.principal_type),
                  ("principal", options.principal),
                  ("path", options.path),
                  ("permissions", options.permissions)]
    json := true }

/-- deleteAccessRule - delete a single access rule by id.  The source reads
the base URL from `options.transferBaseURL` (a field no caller is documented
to set) rather than from the module constant. -/
def deleteAccessRule (bearerToken : String) (options : Options) : Request :=
  { url := toJSString options.transferBaseURL ++ "/endpoint/"
             ++ toJSString options.endpoint_xid ++ "/access/" ++ toJSString options.id
    method := "DELETE"
    auth_bearer := bearerToken }

/-- getActivationRequirements - get the activation requirements of an endpoint. -/
def getActivationRequirements (bearerToken : String) (options : Options) : Request :=
  { url := transferBaseURL ++ "/endpoint/" ++ toJSString options.endpoint_xid
             ++ "/activation_requirements"
    auth_bearer := bearerToken }

/-- autoActivateEndpoint - attempt to auto activate an endpoint. -/
def autoActivateEndpoint (bearerToken : String) (options : Options) : Request :=
  { url := transferBaseURL ++ "/endpoint/" ++ toJSString options.endpoint_xid ++ "/autoactivate"
    method := "POST"
    auth_bearer := bearerToken }

/-- activateEndpoint - activate an endpoint with a filled-in activation
requirements document. -/
def activateEndpoint (bearerToken : String) (options : Options) : Request :=
  { url := transferBaseURL ++ "/endpoint/" ++ toJSString options.endpoint_xid ++ "/activate"
    method := "POST"
    auth_bearer := bearerToken
    body := options.document
    json := true }

/-- deactivateEndpoint - deactivate an endpoint given its UUID. -/
def deactivateEndpoint (bearerToken : String) (options : Options) : Request :=
  { url := transferBaseURL ++ "/endpoint/" ++ toJSString options.endpoint_xid ++ "/deactivate"
    method := "POST"
    auth_bearer := bearerToken }

/-- getUserId - look a user's id up from an e-mail address.  The source calls
`options.userEmail.replace` on the field, which throws a TypeError unless the
field holds a string, and which replaces only the first occurrence. -/
def getUserId (bearerToken : String) (options : Options) : Except String Request :=
  match options.userEmail with
  | .str s =>
    .ok { url := authBaseURL ++ "/identities?usernames=" ++ jsReplaceFirst s "@" "%40"
          auth_bearer := bearerToken }
  | _ => .error "TypeError: options.userEmail.replace is not a function"

/-- getEndpointById - get information about an endpoint. -/
def getEndpointById (bearerToken : String) (options : Options) : Request :=
  { url := transferBaseURL ++ "/endpoint/" ++ toJSString options.endpoint_xid
    auth_bearer := bearerToken }

/-- createEndpoint - create an endpoint. -/
def createEndpoint (bearerToken : String) (options : Options) : Request :=
  { url := transferBaseURL ++ "/endpoint"
    method := "POST"
    auth_bearer := bearerToken
    body := .obj [("display_name", options.display_name),
                  ("DATA", options.documents)]
    json := true }

/-- createSharedEndpoint - create a shared endpoint. -/
def createSharedEndpoint (bearerToken : String) (options : Options) : Request :=
  { url := transferBaseURL ++ "/shared_endpoint"
    method := "POST"
    auth_bearer := bearerToken
    body := .obj [("DATA_TYPE", .str "shared_endpoint"),
                  ("display_name", options.displayName),
                  ("host_endpoint", options.hostId),
                  ("host_path", options.path),
                  ("description", options.description),
                  ("organization", options.organization)]
    json := true }

/-- updateEndpointById - update an endpoint with a (partial) document. -/
def updateEndpointById (bearerToken : String) (options : Options) : Request :=
  { url := transferBaseURL ++ "/endpoint/" ++ toJSString options.endpoint_xid
    method := "POST"
    auth_bearer := bearerToken
    body := options.document
    json := true }

/-- deleteEndpointById - delete an endpoint by id. -/
def deleteEndpointById (bearerToken : String) (options : Options) : Request :=
  { url := transferBaseURL ++ "/endpoint/" ++ toJSString options.endpoint_xid
    method := "DELETE"
    auth_bearer := bearerToken }

/-- getEffectivePauseRuleList - get the pause rules affecting the current user. -/
def getEffectivePauseRuleList (bearerToken : String) (options : Options) : Request :=
  { url := transferBaseURL ++ "/endpoint/" ++ toJSString options.endpoint_xid
             ++ "/my_effective_pause_rule_list"
    auth_bearer := bearerToken }

/-- getEndpointServerList - list all servers of an endpoint. -/
def getEndpointServerList (bearerToken : String) (options : Options) : Request :=
  { url := transferBaseURL ++ "/endpoint/" ++ toJSString options.endpoint_xid ++ "/server_list"
    auth_bearer := bearerToken }

/-- getEndpointServerById - the source computes a URL (ignoring
`options.server_id`) and then unconditionally throws before ever handing the
request to the HTTP client. -/
def getEndpointServerById (bearerToken : String) (options : Options) :
    Except String Request :=
  .error "FIXME(param server_id not used)"

/-- addEndpointServer - add a server to an endpoint; port and scheme fall back
to their defaults through `||`. -/
def addEndpointServer (bearerToken : String) (options : Options) : Request :=
  { url := transferBaseURL ++ "/endpoint/" ++ toJSString options.endpoint_xid ++ "/server"
    method := "POST"
    auth_bearer := bearerToken
    body := .obj [("DATA_TYPE", .str "server"),
                  ("hostname", options.hostname),
                  ("uri", options.uri),
                  ("port", jsOr options.port (.str "2811")),
                  ("scheme", jsOr options.scheme (.str "gsiftp"))]
    json := true }

/-- updateEndpointServerById - update a server of an endpoint; port and scheme
fall back to their defaults through `||`. -/
def updateEndpointServerById (bearerToken : String) (options : Options) : Request :=
  { url := transferBaseURL ++ "/endpoint/" ++ toJSString options.endpoint_xid ++ "/server/"
             ++ toJSString options.server_id
    method := "PUT"
    auth_bearer := bearerToken
    body := .obj [("DATA_TYPE", .str "server"),
                  ("hostname", options.hostname),
                  ("uri", options.uri),
                  ("port", jsOr options.port (.str "2811")),
                  ("scheme", jsOr options.scheme (.str "gsiftp")),
                  ("subject", options.subject)]
    json := true }

/-- deleteEndpointServerById - delete a server of an endpoint. -/
def deleteEndpointServerById (bearerToken : String) (options : Options) : Request :=
  { url := transferBaseURL ++ "/endpoint/" ++ toJSString options.endpoint_xid ++ "/server/"
             ++ toJSString options.server_id
    method := "DELETE"
    auth_bearer := bearerToken }

/-- getSharedEndpointList - list shared endpoints hosted by an endpoint.  The
source concatenates the final segment directly after the endpoint id, with no
separating slash. -/
def getSharedEndpointList (bearerToken : String) (options : Options) : Request :=
  { url := transferBaseURL ++ "/endpoint/" ++ toJSString options.endpoint_xid
             ++ "my_shared_endpoint_list"
    auth_bearer := bearerToken }

/-- listDirectoryContents - list a directory of an endpoint filesystem; the
path falls back to the slash through `||`, and the query parameters (or the
empty string) are appended after it. -/
def listDirectoryContents (bearerToken : String) (options : Options) : Request :=
  { url := transferBaseURL ++ "/operation/endpoint/" ++ toJSString options.endpoint_xid
             ++ "/ls?path="
             ++ toJSString (jsOr options.path (.str "/"))
             ++ toJSString (jsOr options.query_parameters (.str ""))
    auth_bearer := bearerToken }

/-- makeDirectory - create a directory on an endpoint filesystem. -/
def makeDirectory (bearerToken : String) (options : Options) : Request :=
  { url := transferBaseURL ++ "/operation/endpoint/" ++ toJSString options.endpoint_xid
             ++ "/mkdir"
    method := "POST"
    auth_bearer := bearerToken
    body := .obj [("DATA_TYPE", .str "mkdir"),
                  ("path", options.path)]
    json := true }

/-- rename - rename or move a file or directory on an endpoint filesystem. -/
def rename (bearerToken : String) (options : Options) : Request :=
  { url := transferBaseURL ++ "/operation/endpoint/" ++ toJSString options.endpoint_xid
             ++ "/rename"
    method := "POST"
    auth_bearer := bearerToken
    body := .obj [("DATA_TYPE", .str "rename"),
                  ("old_path", options.old_path),
                  ("new_path", options.new_path)]
    json := true }

/-- getSubmissionId - get a submission id for transfer and delete tasks. -/
def getSubmissionId (bearerToken : String) : Request :=
  { url := transferBaseURL ++ "/submission_id"
    auth_bearer := bearerToken }

/-- submitTransferTask - submit a transfer task. -/
def submitTransferTask (bearerToken : String) (options : Options) : Request :=
  { url := transferBaseURL ++ "/transfer"
    method := "POST"
    auth_bearer := bearerToken
    body := .obj [("DATA_TYPE", .str "transfer"),
                  ("submission_id", options.submission_id),
                  ("label", options.label),
                  ("notify_on_succeeded", options.notify_on_succeeded),
                  ("notify_on_failed", options.notify_on_failed),
                  ("notify_on_inactive", options.notify_on_inactive),
                  ("source_endpoint", options.source_endpoint),
                  ("destination_endpoint", options.destination_endpoint),
                  ("DATA", options.DATA),
                  ("encrypt_data", options.encrypt_data),
                  ("sync_level", options.sync_level),
                  ("verify_checksum", options.verify_checksum),
                  ("preserve_timestamp", options.preserve_timestamp),
                  ("delete_destination_extra", options.delete_destination_extra)]
    json := true }

/-- submitDeletionTask - the source throws its not-implemented error on the
first line, before any URL or body is built. -/
def submitDeletionTask (bearerToken : String) (options : Options) :
    Except String Request :=
  .error "Not implemented"

/-- Projection used to state URL facts about the fallible operations. -/
def okUrl : Except String Request → Option String
  | .ok r => some r.url
  | .error _ => none

/-- Replacement of every occurrence of a single character, following the
specification's words for the claimed e-mail encoding. -/
def listEncodeChar (c : Char) (rep : List Char) : List Char → List Char
  | [] => []
  | d :: rest =>
    if d = c then rep ++ listEncodeChar c rep rest
    else d :: listEncodeChar c rep rest

/-- Claimed URL of the user lookup, following the specification's words: every
occurrence of the at sign in the e-mail is percent-encoded in the usernames
query parameter. -/
def specUserIdURL (userEmail : String) : String :=
  authBaseURL ++ "/identities?usernames="
    ++ String.mk (listEncodeChar '@' "%40".data userEmail.data)

/-- Claimed URL of the directory listing when the path is omitted, following
the specification's words: the path value is left to remote-side defaulting,
so nothing of the layer's choosing stands after the path parameter. -/
def specListDirectoryURL_noPath (endpoint_xid query_parameters : String) : String :=
  transferBaseURL ++ "/operation/endpoint/" ++ endpoint_xid ++ "/ls?path="
    ++ query_parameters

/-- Bearer-credential invariant for the fallible operations: whatever request
they produce carries the token. -/
def carriesBearer (t : String) (e : Except String Request) : Prop :=
  ∀ r : Request, e = .ok r → r.auth_bearer = t

theorem listEncodeChar_of_not_mem (c : Char) (rep l : List Char) (h : c ∉ l) :
    listEncodeChar c rep l = l := by
  induction l with
  | nil => rfl
  | cons d rest ih =>
    have hd : ¬ d = c := by
      intro hdc
      exact h (hdc ▸ List.mem_cons_self d rest)
    have hrest : c ∉ rest := fun hm => h (List.mem_cons_of_mem d hm)
    simp [listEncodeChar, hd, ih hrest]

theorem listEncodeChar_single (rep a b : List Char) (ha : '@' ∉ a) (hb : '@' ∉ b) :
    listEncodeChar '@' rep (a ++ '@' :: b) = a ++ rep ++ b := by
  induction a with
  | nil => simp [listEncodeChar, listEncodeChar_of_not_mem '@' rep b hb]
  | cons c cs ih =>
    have hc : ¬ c = '@' := by
      intro hcc
      exact ha (hcc ▸ List.mem_cons_self c cs)
    have hcs : '@' ∉ cs := fun hm => ha (List.mem_cons_of_mem c hm)
    simp [listEncodeChar, hc, ih hcs]

theorem listReplaceFirst_at_first (rep a b : List Char) (ha : '@' ∉ a) :
    listReplaceFirst ['@'] rep (a ++ '@' :: b) = a ++ rep ++ b := by
  induction a with
  | nil => simp [listReplaceFirst, List.isPrefixOf]
  | cons c cs ih =>
    have hc : ¬ ('@' = c) := by
      intro hcc
      exact ha (hcc ▸ List.mem_cons_self c cs)
    have hcb : ('@' == c) = false := beq_eq_false_iff_ne.mpr hc
    have hcs : '@' ∉ cs := fun hm => ha (List.mem_cons_of_mem c hm)
    simp [listReplaceFirst, List.isPrefixOf, hcb, ih hcs]

theorem jsReplaceFirst_single_at (a b : String) (ha : '@' ∉ a.data) :
    jsReplaceFirst (a ++ "@" ++ b) "@" "%40" = a ++ "%40" ++ b := by
  apply String.ext
  have hat : ("@" : String).data = ['@'] := rfl
  simp only [jsReplaceFirst, String.data_append, hat]
  rw [List.append_assoc, List.singleton_append]
  rw [listReplaceFirst_at_first _ _ _ ha]

/-- C1: deleteAccessRule does produce a DELETE request, but the source reads
the base URL from the options bag, where no such field exists, so the URL
starts with the text "undefined" instead of the transfer-management base URL:
the claim fails on the code. -/
theorem deleteAccessRule_url_ignores_module_base :
    (deleteAccessRule "tok" { endpoint_xid := .str "EP", id := .num 7 }).method = "DELETE" ∧
    (deleteAccessRule "tok" { endpoint_xid := .str "EP", id := .num 7 }).url
        = "undefined/endpoint/EP/access/7" ∧
    (deleteAccessRule "tok" { endpoint_xid := .str "EP", id := .num 7 }).url
        ≠ transferBaseURL ++ "/endpoint/EP/access/7" := by
  refine ⟨rfl, by decide, by decide⟩

/-- C2: createAccessRule carries the principal, the path and the notification
e-mail, but the permissions field of the body is the hardcoded string for
read-only even when the caller supplies read-write: the claim's default-only
reading fails on the code. -/
theorem createAccessRule_hardcodes_read_only :
    jsGet (createAccessRule "tok"
      { endpoint_xid := .str "EP", userId := .str "U", path := .str "/p/",
        permissions := .str "rw", userEmail := .str "u@x.org" }).body "permissions"
        = .str "r" ∧
    JSValue.str "r" ≠ JSValue.str "rw" ∧
    jsGet (createAccessRule "tok"
      { endpoint_xid := .str "EP", userId := .str "U", path := .str "/p/",
        permissions := .str "rw", userEmail := .str "u@x.org" }).body "principal"
        = .str "U" ∧
    jsGet (createAccessRule "tok"
      { endpoint_xid := .str "EP", userId := .str "U", path := .str "/p/",
        permissions := .str "rw", userEmail := .str "u@x.org" }).body "path"
        = .str "/p/" ∧
    jsGet (createAccessRule "tok"
      { endpoint_xid := .str "EP", userId := .str "U", path := .str "/p/",
        permissions := .str "rw", userEmail := .str "u@x.org" }).body "notify_email"
        = .str "u@x.org" := by
  refine ⟨rfl, ?_, rfl, rfl, rfl⟩
  intro h
  injection h with h2
  exact absurd h2 (by decide)

/-- C3: submitDeletionTask always fails immediately with the not-implemented
error and never produces a request. -/
theorem submitDeletionTask_not_implemented (bearerToken : String) (options : Options) :
    submitDeletionTask bearerToken options = .error "Not implemented" ∧
    ∀ r : Request, submitDeletionTask bearerToken options ≠ .ok r :=
  ⟨rfl, fun _ h => Except.noConfusion h⟩

/-- C4: getEndpointServerById always fails immediately with an explicit
invalid-usage error naming the ignored server id, and never produces a
request. -/
theorem getEndpointServerById_explicit_failure (bearerToken : String) (options : Options) :
    getEndpointServerById bearerToken options = .error "FIXME(param server_id not used)" ∧
    ∀ r : Request, getEndpointServerById bearerToken options ≠ .ok r :=
  ⟨rfl, fun _ h => Except.noConfusion h⟩

/-- C5: when port and scheme are absent from the options bag, the body built
by addEndpointServer carries the default port and scheme strings. -/
theorem addEndpointServer_defaults_when_absent (t : String) (o : Options)
    (hp : o.port = .undef) (hs : o.scheme = .undef) :
    jsGet (addEndpointServer t o).body "port" = .str "2811" ∧
    jsGet (addEndpointServer t o).body "scheme" = .str "gsiftp" := by
  refine ⟨?_, ?_⟩ <;> simp only [addEndpointServer] <;> rw [hp, hs] <;> rfl

/-- Witness for C5 at a concrete bag that sets neither port nor scheme. -/
theorem addEndpointServer_defaults_when_absent_witness :
    jsGet (addEndpointServer "tok"
      { endpoint_xid := .str "EP", hostname := .str "h.org" }).body "port" = .str "2811" ∧
    jsGet (addEndpointServer "tok"
      { endpoint_xid := .str "EP", hostname := .str "h.org" }).body "scheme" = .str "gsiftp" :=
  addEndpointServer_defaults_when_absent "tok"
    { endpoint_xid := .str "EP", hostname := .str "h.org" } rfl rfl

/-- C7: the URL built by getSharedEndpointList concatenates the final segment
directly after the endpoint id, with no separating slash, so it differs from
the claimed URL: the claim fails on the code. -/
theorem getSharedEndpointList_missing_separator :
    (getSharedEndpointList "tok" { endpoint_xid := .str "EP" }).url
        = transferBaseURL ++ "/endpoint/EPmy_shared_endpoint_list" ∧
    (getSharedEndpointList "tok" { endpoint_xid := .str "EP" }).url
        ≠ transferBaseURL ++ "/endpoint/EP" ++ "/my_shared_endpoint_list" := by
  refine ⟨by decide, by decide⟩

/-- C10: in addEndpointServer and updateEndpointServerById, any falsy port
(respectively scheme) value - absent, null, false, zero or the empty string -
is replaced by the default port (respectively scheme), exactly as if the
field had been omitted. -/
theorem serverDefaults_apply_to_falsy (t : String) (o : Options) :
    (truthy o.port = false →
      jsGet (addEndpointServer t o).body "port" = .str "2811" ∧
      jsGet (updateEndpointServerById t o).body "port" = .str "2811") ∧
    (truthy o.scheme = false →
      jsGet (addEndpointServer t o).body "scheme" = .str "gsiftp" ∧
      jsGet (updateEndpointServerById t o).body "scheme" = .str "gsiftp") := by
  constructor
  · intro hp
    constructor <;> simp only [addEndpointServer, updateEndpointServerById] <;>
      simp only [jsOr, hp, Bool.false_eq_true, if_false] <;> rfl
  · intro hs
    constructor <;> simp only [addEndpointServer, updateEndpointServerById] <;>
      simp only [jsOr, hs, Bool.false_eq_true, if_false] <;> rfl

/-- Witness for C10 at a concrete bag whose port is the empty string and whose
scheme is the number zero: both falsy, both replaced by the defaults. -/
theorem serverDefaults_apply_to_falsy_witness :
    jsGet (addEndpointServer "tok"
      { endpoint_xid := .str "EP", port := .str "", scheme := .num 0 }).body "port"
        = .str "2811" ∧
    jsGet (updateEndpointServerById "tok"
      { endpoint_xid := .str "EP", port := .str "", scheme := .num 0 }).body "scheme"
        = .str "gsiftp" :=
  ⟨((serverDefaults_apply_to_falsy "tok"
      { endpoint_xid := .str "EP", port := .str "", scheme := .num 0 }).1 rfl).1,
   ((serverDefaults_apply_to_falsy "tok"
      { endpoint_xid := .str "EP", port := .str "", scheme := .num 0 }).2 rfl).2⟩

/-- C6 counterexample: on an e-mail with two at signs, only the first is
percent-encoded; the produced URL still contains a literal at sign and
differs from the claimed fully-encoded URL. -/
theorem getUserId_second_at_unencoded :
    okUrl (getUserId "tok" { userEmail := .str "a@b@c" })
        = some (authBaseURL ++ "/identities?usernames=a%40b@c") ∧
    authBaseURL ++ "/identities?usernames=a%40b@c" ≠ specUserIdURL "a@b@c" ∧
    '@' ∈ (authBaseURL ++ "/identities?usernames=a%40b@c").data := by
  refine ⟨by decide, by decide, by decide⟩

/-- C6 amended: getUserId percent-encodes exactly the first occurrence of the
at sign in the e-mail; when the e-mail has a single at sign (the well-formed
case) every occurrence is therefore encoded, as the specification claims. -/
theorem getUserId_encodes_first_at (t a b : String) (ha : '@' ∉ a.data) :
    okUrl (getUserId t { userEmail := .str (a ++ "@" ++ b) })
        = some (authBaseURL ++ "/identities?usernames=" ++ a ++ "%40" ++ b) ∧
    ('@' ∉ b.data →
      okUrl (getUserId t { userEmail := .str (a ++ "@" ++ b) })
        = some (specUserIdURL (a ++ "@" ++ b))) := by
  have hfirst : okUrl (getUserId t { userEmail := .str (a ++ "@" ++ b) })
      = some (authBaseURL ++ "/identities?usernames=" ++ a ++ "%40" ++ b) := by
    show some (authBaseURL ++ "/identities?usernames="
        ++ jsReplaceFirst (a ++ "@" ++ b) "@" "%40") = _
    rw [jsReplaceFirst_single_at a b ha]
    simp only [String.append_assoc]
  refine ⟨hfirst, fun hb => ?_⟩
  rw [hfirst]
  congr 1
  apply String.ext
  have hat : ("@" : String).data = ['@'] := rfl
  simp only [specUserIdURL, String.data_append, hat]
  rw [List.append_assoc a.data ['@'] b.data, List.singleton_append]
  rw [listEncodeChar_single _ _ _ ha hb]
  simp [List.append_assoc]

/-- Witness for C6 amended at the concrete e-mail built from "user" and
"example.org". -/
theorem getUserId_encodes_first_at_witness :
    okUrl (getUserId "tok" { userEmail := .str ("user" ++ "@" ++ "example.org") })
        = some (authBaseURL ++ "/identities?usernames=" ++ "user" ++ "%40" ++ "example.org") :=
  (getUserId_encodes_first_at "tok" "user" "example.org" (by decide)).1

/-- C8: every exported operation that constructs a request carries the
caller's bearer token as the bearer-authorization credential of the request;
the two operations that fail before building a request vacuously so. -/
theorem every_request_carries_bearer (t : String) (o : Options) :
    (getAccessRulesList t o).auth_bearer = t ∧
    (getAccessRulesListById t o).auth_bearer = t ∧
    (createAccessRule t o).auth_bearer = t ∧
    (updateAccessRule t o).auth_bearer = t ∧
    (deleteAccessRule t o).auth_bearer = t ∧
    (getActivationRequirements t o).auth_bearer = t ∧
    (autoActivateEndpoint t o).auth_bearer = t ∧
    (activateEndpoint t o).auth_bearer = t ∧
    (deactivateEndpoint t o).auth_bearer = t ∧
    (getEndpointById t o).auth_bearer = t ∧
    (createEndpoint t o).auth_bearer = t ∧
    (createSharedEndpoint t o).auth_bearer = t ∧
    (updateEndpointById t o).auth_bearer = t ∧
    (deleteEndpointById t o).auth_bearer = t ∧
    (getEffectivePauseRuleList t o).auth_bearer = t ∧
    (getEndpointServerList t o).auth_bearer = t ∧
    (addEndpointServer t o).auth_bearer = t ∧
    (updateEndpointServerById t o).auth_bearer = t ∧
    (deleteEndpointServerById t o).auth_bearer = t ∧
    (getSharedEndpointList t o).auth_bearer = t ∧
    (listDirectoryContents t o).auth_bearer = t ∧
    (makeDirectory t o).auth_bearer = t ∧
    (rename t o).auth_bearer = t ∧
    (getSubmissionId t).auth_bearer = t ∧
    (submitTransferTask t o).auth_bearer = t ∧
    carriesBearer t (getUserId t o) ∧
    carriesBearer t (getEndpointServerById t o) ∧
    carriesBearer t (submitDeletionTask t o) := by
  refine ⟨rfl, rfl, rfl, rfl, rfl, rfl, rfl, rfl, rfl, rfl, rfl, rfl, rfl, rfl,
    rfl, rfl, rfl, rfl, rfl, rfl, rfl, rfl, rfl, rfl, rfl, ?_, ?_, ?_⟩
  · intro r h
    unfold getUserId at h
    split at h
    · injection h with h2
      rw [← h2]
    · exact Except.noConfusion h
  · exact fun _ h => Except.noConfusion h
  · exact fun _ h => Except.noConfusion h

/-- Witness for C8: the bearer credential of two representative requests at a
concrete token and bag. -/
theorem every_request_carries_bearer_witness :
    (getAccessRulesList "tok" { endpoint_xid := .str "EP" }).auth_bearer = "tok" ∧
    (getAccessRulesListById "tok" { endpoint_xid := .str "EP" }).auth_bearer = "tok" :=
  ⟨(every_request_carries_bearer "tok" { endpoint_xid := .str "EP" }).1,
   (every_request_carries_bearer "tok" { endpoint_xid := .str "EP" }).2.1⟩

/-- C9 counterexample: with the path omitted, the layer itself substitutes the
slash and sends it in the path query parameter; the URL is not the one the
specification's remote-side-defaulting reading claims. -/
theorem listDirectoryContents_path_always_sent :
    (listDirectoryContents "tok" { endpoint_xid := .str "EP" }).url
        = transferBaseURL ++ "/operation/endpoint/EP/ls?path=/" ∧
    (listDirectoryContents "tok" { endpoint_xid := .str "EP" }).url
        ≠ specListDirectoryURL_noPath "EP" "" := by
  refine ⟨by decide, by decide⟩

/-- The query-parameter fallback of the directory listing is transparent: a
caller-supplied string passes through the `||` with the empty string
unchanged, whether or not it is empty itself. -/
theorem jsOr_str_empty (s : String) : toJSString (jsOr (.str s) (.str "")) = s := by
  by_cases h : s = ""
  · subst h
    rfl
  · have hb : (s != "") = true := bne_iff_ne.mpr h
    simp [jsOr, truthy, toJSString, hb]

/-- C9 amended: for every options bag, listDirectoryContents appends the
caller's query-parameter string verbatim right after the path value of the
path query parameter; with a supplied nonempty path string that value is the
path itself, and with the path omitted the layer substitutes the slash
client-side, pinning the path rather than leaving the default to the remote
side. -/
theorem listDirectoryContents_client_default (t qp : String) (o : Options)
    (hq : o.query_parameters = .str qp) :
    ((listDirectoryContents t o).url
        = transferBaseURL ++ "/operation/endpoint/" ++ toJSString o.endpoint_xid
            ++ "/ls?path=" ++ toJSString (jsOr o.path (.str "/")) ++ qp) ∧
    (∀ p : String, o.path = .str p → p ≠ "" →
      (listDirectoryContents t o).url
          = transferBaseURL ++ "/operation/endpoint/" ++ toJSString o.endpoint_xid
              ++ "/ls?path=" ++ p ++ qp) ∧
    (o.path = .undef →
      (listDirectoryContents t o).url
          = transferBaseURL ++ "/operation/endpoint/" ++ toJSString o.endpoint_xid
              ++ "/ls?path=/" ++ qp) := by
  refine ⟨?_, ?_, ?_⟩
  · simp only [listDirectoryContents]
    rw [hq, jsOr_str_empty qp]
  · intro p hp hpne
    have hpb : (p != "") = true := bne_iff_ne.mpr hpne
    have h1 : toJSString (jsOr (.str p) (.str "/")) = p := by
      simp [jsOr, truthy, toJSString, hpb]
    simp only [listDirectoryContents]
    rw [hp, hq, h1, jsOr_str_empty qp]
  · intro hp
    have h3 : toJSString (jsOr JSValue.undef (.str "/")) = "/" := rfl
    simp only [listDirectoryContents]
    rw [hp, hq, h3, jsOr_str_empty qp]
    congr 1
    rw [String.append_assoc (transferBaseURL ++ "/operation/endpoint/"
        ++ toJSString o.endpoint_xid) "/ls?path=" "/"]
    rw [show ("/ls?path=" : String) ++ "/" = "/ls?path=/" from by decide]

/-- Witness for C9 amended at two concrete bags, one with a supplied path and
one with the path omitted, both with a nonempty query-parameter string. -/
theorem listDirectoryContents_client_default_witness :
    (listDirectoryContents "tok"
      { endpoint_xid := .str "EP", path := .str "/data/",
        query_parameters := .str "&limit=5" }).url
        = transferBaseURL ++ "/operation/endpoint/" ++ toJSString (JSValue.str "EP")
            ++ "/ls?path=" ++ "/data/" ++ "&limit=5" ∧
    (listDirectoryContents "tok"
      { endpoint_xid := .str "EP", query_parameters := .str "&limit=5" }).url
        = transferBaseURL ++ "/operation/endpoint/" ++ toJSString (JSValue.str "EP")
            ++ "/ls?path=/" ++ "&limit=5" :=
  ⟨((listDirectoryContents_client_default "tok" "&limit=5"
      { endpoint_xid := .str "EP", path := .str "/data/",
        query_parameters := .str "&limit=5" } rfl).2.1 "/data/" rfl (by decide)),
   ((listDirectoryContents_client_default "tok" "&limit=5"
      { endpoint_xid := .str "EP", query_parameters := .str "&limit=5" } rfl).2.2 rfl)⟩

end Globus
